import Mathlib

/-!
Verification of the DHT22 protocol decoder in `src/expodht/dht22.py`
(class `Sensor`).

The embedding models, straight from the Python source:

* the module-level model and status constants (lines 9-16);
* the decoder state owned by a `Sensor` instance (`_new_data`, `_in_code`,
  `_bits`, `_code`, `_status`, `_temperature`, `_humidity`,
  `_last_edge_tick`, plus the configured `_model`);
* `_validate_DHT11`, `_validate_DHTXX`, `_decode_dhtxx` (frame
  interpretation), `_rising_edge` (the edge-timing state machine),
  `_trigger` and `read` (the triggered read with its bounded wait loop).

Python floats are modelled as `Rat`.  Every value the code produces is of
the form `k / 10` with `k ≤ 65535`; such quotients and the bound constants
(110.0, -50.0, 135.0, 60, 9, 90) are either exactly representable or far
(0.1 apart) from each comparison boundary relative to double rounding error,
so rational arithmetic decides every comparison and equality in the code
exactly as IEEE doubles do.

Python's unbounded ints are modelled as `Nat` (the accumulator `_code`) and
`Int` (the signed `_bits` counter).  Wall-clock timestamps, the GPIO pin
number and the actual sleeping are I/O and are omitted from the state; the
tuple returned by `read` is modelled as `(status, temperature, humidity)`.
Edges arriving concurrently during the wait loop's sleep slices are
modelled as one batch of edge intervals per polling increment.
-/

set_option maxRecDepth 8000

/-- Model constant `DHTAUTO = 0` (dht22.py line 9). -/
def DHTAUTO : Nat := 0

/-- Model constant `DHT11 = 1` (dht22.py line 10). -/
def DHT11 : Nat := 1

/-- Model constant `DHTXX = 2` (dht22.py line 11). -/
def DHTXX : Nat := 2

/-- Status constant `DHT_GOOD = 0` (dht22.py line 13). -/
def DHT_GOOD : Nat := 0

/-- Status constant `DHT_BAD_CHECKSUM = 1` (dht22.py line 14). -/
def DHT_BAD_CHECKSUM : Nat := 1

/-- Status constant `DHT_BAD_DATA = 2` (dht22.py line 15). -/
def DHT_BAD_DATA : Nat := 2

/-- Status constant `DHT_TIMEOUT = 3` (dht22.py line 16). -/
def DHT_TIMEOUT : Nat := 3

/-- Mutable state of a `Sensor` instance (fields set in `__init__`,
dht22.py lines 48-65).  `model` is the configured variant (immutable after
construction). -/
structure SensorState where
  model : Nat
  new_data : Bool
  in_code : Bool
  bits : Int
  code : Nat
  status : Nat
  temperature : Rat
  humidity : Rat
  last_edge_tick : Nat
deriving Repr, DecidableEq

/-- State right after `__init__` (dht22.py lines 53-65): `_new_data = False`,
`_in_code = False`, `_bits = 0`, `_code = 0`, `_status = DHT_TIMEOUT`,
`_temperature = 0.0`, `_humidity = 0.0`; `tick0` stands for
`pi.get_current_tick() - 10000`. -/
def initState (model : Nat) (tick0 : Nat) : SensorState :=
  { model := model, new_data := false, in_code := false, bits := 0, code := 0,
    status := DHT_TIMEOUT, temperature := 0, humidity := 0,
    last_edge_tick := tick0 }

/-- Embedding of `Sensor._validate_DHT11` (dht22.py lines 77-84): returns
`(valid, t, h)` with `t = b2`, `h = b4`. -/
def validate_DHT11 (b1 b2 b3 b4 : Nat) : Bool × Rat × Rat :=
  let t : Rat := (b2 : Rat)
  let h : Rat := (b4 : Rat)
  let valid : Bool :=
    decide ((b1 = 0) ∧ (b3 = 0) ∧ (t ≤ 60) ∧ (h ≥ 9) ∧ (h ≤ 90))
  (valid, t, h)

/-- Embedding of `Sensor._validate_DHTXX` (dht22.py lines 86-97): sign-and-magnitude
temperature from `(b2, b1)` (bit 7 of `b2` selects divisor `-10.0`),
humidity from `(b4, b3)`. -/
def validate_DHTXX (b1 b2 b3 b4 : Nat) : Bool × Rat × Rat :=
  let div : Rat := if b2 &&& 128 ≠ 0 then -10 else 10
  let t : Rat := ((((b2 &&& 127) <<< 8) + b1 : Nat) : Rat) / div
  let h : Rat := (((b4 <<< 8) + b3 : Nat) : Rat) / 10
  let valid : Bool := decide ((h ≤ 110) ∧ (t ≥ -50) ∧ (t ≤ 135))
  (valid, t, h)

/-- Embedding of `Sensor._decode_dhtxx` (dht22.py lines 99-147): extract bytes `b0..b4`
from the 40-bit accumulator, check the checksum, interpret per the
configured model (AUTO tries DHTXX first, then DHT11), and update
`status`/`temperature`/`humidity`/`new_data`. -/
def decode_dhtxx (s : SensorState) : SensorState :=
  let b0 := s.code &&& 0xFF
  let b1 := (s.code >>> 8) &&& 0xFF
  let b2 := (s.code >>> 16) &&& 0xFF
  let b3 := (s.code >>> 24) &&& 0xFF
  let b4 := (s.code >>> 32) &&& 0xFF
  let chksum := (b1 + b2 + b3 + b4) &&& 0xFF
  if chksum = b0 then
    let r : Bool × Rat × Rat :=
      if s.model = DHT11 then
        validate_DHT11 b1 b2 b3 b4
      else if s.model = DHTXX then
        validate_DHTXX b1 b2 b3 b4
      else
        let rx := validate_DHTXX b1 b2 b3 b4
        if rx.1 then rx else validate_DHT11 b1 b2 b3 b4
    if r.1 then
      { s with temperature := r.2.1, humidity := r.2.2,
               status := DHT_GOOD, new_data := true }
    else
      { s with status := DHT_BAD_DATA, new_data := true }
  else
    { s with status := DHT_BAD_CHECKSUM, new_data := true }

/-- Embedding of `pigpio.tickDiff(t1, t2)`: wraparound-safe difference of 32-bit tick
values (`t2 - t1` modulo `2^32`), for ticks below `2^32`. -/
def tickDiff (t1 t2 : Nat) : Nat := (t2 + 2 ^ 32 - t1) % 2 ^ 32

/-- Core of `Sensor._rising_edge` (dht22.py lines 152-170), acting on the
already-computed interval `edge_len`.  Returns the new state and
`some code` exactly when `_decode_dhtxx` was invoked (the 40-bit
accumulator handed to interpretation); the decode's state update is
already applied to the returned state. -/
def rising_edge_len (s : SensorState) (edge_len : Nat) : SensorState × Option Nat :=
  if edge_len > 10000 then
    ({ s with in_code := true, bits := -2, code := 0 }, none)
  else if s.in_code then
    let bits := s.bits + 1
    let ci : Nat × Bool :=
      if bits ≥ 1 then
        let code := s.code <<< 1
        if 60 ≤ edge_len ∧ edge_len ≤ 150 then
          (if edge_len > 100 then code + 1 else code, true)
        else
          (code, false)
      else
        (s.code, true)
    if ci.2 = true ∧ bits = 40 then
      ({ decode_dhtxx { s with bits := bits, code := ci.1 } with in_code := false },
        some ci.1)
    else
      ({ s with bits := bits, code := ci.1, in_code := ci.2 }, none)
  else
    (s, none)

/-- Embedding of `Sensor._rising_edge` (dht22.py lines 149-170): compute the interval
with `tickDiff`, update `_last_edge_tick`, then process the interval. -/
def rising_edge (s : SensorState) (tick : Nat) : SensorState × Option Nat :=
  let edge_len := tickDiff s.last_edge_tick tick
  rising_edge_len { s with last_edge_tick := tick } edge_len

/-- Process a list of edge intervals in order, collecting every 40-bit
accumulator handed to `_decode_dhtxx`. -/
def processEdges (s : SensorState) : List Nat → SensorState × List Nat
  | [] => (s, [])
  | len :: rest =>
    let r := rising_edge_len s len
    let r2 := processEdges r.1 rest
    (r2.1, r.2.toList ++ r2.2)

/-- Embedding of `Sensor._trigger` (dht22.py lines 172-181), state part: reset
`_new_data` and set the default `_status = DHT_TIMEOUT` (the GPIO pulse
and sleeping are I/O). -/
def trigger (s : SensorState) : SensorState :=
  { s with new_data := false, status := DHT_TIMEOUT }

/-- Embedding of `Sensor._datum` (dht22.py lines 68-75), with the wall-clock timestamp
and pin number omitted: `(status, temperature, humidity)`. -/
def datum (s : SensorState) : Nat × Rat × Rat :=
  (s.status, s.temperature, s.humidity)

/-- The polling loop of `Sensor.read` (dht22.py lines 206-209):
`for i in range(fuel): sleep(0.05); if new_data: break`.  `batches`
gives the edge intervals delivered during each sleep; the result pairs
the final state with the number of polling increments performed. -/
def waitLoop : SensorState → List (List Nat) → Nat → SensorState × Nat
  | s, _, 0 => (s, 0)
  | s, batches, n + 1 =>
    let s1 := (processEdges s (batches.headD [])).1
    if s1.new_data = true then
      (s1, 1)
    else
      let r := waitLoop s1 batches.tail n
      (r.1, r.2 + 1)

/-- Embedding of `Sensor.read` (dht22.py lines 189-213): trigger, wait up to 5 polling
increments, take the datum, invoke the callback (when one was registered)
with that datum, and return it.  The result is
`(final state, datum, list of callback invocations)`. -/
def read (s : SensorState) (batches : List (List Nat)) (hasCallback : Bool) :
    SensorState × (Nat × Rat × Rat) × List (Nat × Rat × Rat) :=
  let s1 := trigger s
  let s2 := (waitLoop s1 batches 5).1
  let d := datum s2
  (s2, d, if hasCallback then [d] else [])

/-- Bit value the decoder appends for a data interval: 1 when the interval
exceeds 100 microseconds (dht22.py lines 161-163). -/
def classifyBit (edge_len : Nat) : Nat := if edge_len > 100 then 1 else 0

/-- Left-shift accumulation of classified data intervals onto `c`. -/
def accumBits (c : Nat) (ds : List Nat) : Nat :=
  ds.foldl (fun a d => 2 * a + classifyBit d) c

/-- Big-endian concatenation of a list of bits (first bit most
significant). -/
def beConcat (bs : List Nat) : Nat := bs.foldl (fun a b => 2 * a + b) 0

/-- A valid data pulse: interval in `[60, 150]` microseconds
(dht22.py line 160). -/
def validPulse (d : Nat) : Prop := 60 ≤ d ∧ d ≤ 150

instance (d : Nat) : Decidable (validPulse d) :=
  inferInstanceAs (Decidable (60 ≤ d ∧ d ≤ 150))

/-- A 40-bit frame word with bytes `b0..b4`, `b0` the least significant. -/
def assembleFrame (b0 b1 b2 b3 b4 : Nat) : Nat :=
  b0 + b1 * 2 ^ 8 + b2 * 2 ^ 16 + b3 * 2 ^ 24 + b4 * 2 ^ 32

/-! ## Bitwise-to-arithmetic helper lemmas -/

lemma and_255_eq_mod (n : Nat) : n &&& 255 = n % 256 := by
  have h := Nat.and_pow_two_sub_one_eq_mod n 8
  simpa using h

lemma and_127_eq_mod (n : Nat) : n &&& 127 = n % 128 := by
  have h := Nat.and_pow_two_sub_one_eq_mod n 7
  simpa using h

lemma and_128_eq_of_lt (b : Nat) (hb : b < 256) :
    b &&& 128 = if 128 ≤ b then 128 else 0 := by
  have h : ∀ x : Fin 256, x.val &&& 128 = if 128 ≤ x.val then 128 else 0 := by decide
  exact h ⟨b, hb⟩

lemma assembleFrame_bytes (b0 b1 b2 b3 b4 : Nat)
    (h0 : b0 < 256) (h1 : b1 < 256) (h2 : b2 < 256) (h3 : b3 < 256)
    (h4 : b4 < 256) :
    assembleFrame b0 b1 b2 b3 b4 &&& 0xFF = b0 ∧
    (assembleFrame b0 b1 b2 b3 b4 >>> 8) &&& 0xFF = b1 ∧
    (assembleFrame b0 b1 b2 b3 b4 >>> 16) &&& 0xFF = b2 ∧
    (assembleFrame b0 b1 b2 b3 b4 >>> 24) &&& 0xFF = b3 ∧
    (assembleFrame b0 b1 b2 b3 b4 >>> 32) &&& 0xFF = b4 := by
  unfold assembleFrame
  refine ⟨?_, ?_, ?_, ?_, ?_⟩ <;>
    simp only [and_255_eq_mod, Nat.shiftRight_eq_div_pow] <;> omega

/-- The variant dispatch inside `_decode_dhtxx` (dht22.py lines 129-138):
DHT11 and DHTXX select their validator; anything else (AUTO) tries DHTXX
first and falls back to DHT11. -/
def interpModel (model b1 b2 b3 b4 : Nat) : Bool × Rat × Rat :=
  if model = DHT11 then
    validate_DHT11 b1 b2 b3 b4
  else if model = DHTXX then
    validate_DHTXX b1 b2 b3 b4
  else
    let rx := validate_DHTXX b1 b2 b3 b4
    if rx.1 then rx else validate_DHT11 b1 b2 b3 b4

/-- Temperature formula the spec states for the DHTXX variant:
magnitude `((b2 AND 0x7F) shifted left 8) OR b1` over 10, negated exactly
when bit 7 of `b2` is set. -/
def dhtxxTemp (b1 b2 : Nat) : Rat :=
  if 128 ≤ b2 then -((((b2 % 128) * 256 + b1 : Nat) : Rat) / 10)
  else (((b2 % 128) * 256 + b1 : Nat) : Rat) / 10

/-- Humidity formula the spec states for the DHTXX variant:
`(b4 shifted left 8) OR b3` over 10. -/
def dhtxxHum (b3 b4 : Nat) : Rat := ((b4 * 256 + b3 : Nat) : Rat) / 10

lemma validate_DHT11_eq (b1 b2 b3 b4 : Nat) :
    validate_DHT11 b1 b2 b3 b4 =
      (decide (b1 = 0 ∧ b3 = 0 ∧ b2 ≤ 60 ∧ 9 ≤ b4 ∧ b4 ≤ 90),
       (b2 : Rat), (b4 : Rat)) := by
  unfold validate_DHT11
  refine congrArg (fun v => (v, (b2 : Rat), (b4 : Rat))) ?_
  rw [decide_eq_decide]
  norm_cast

lemma validate_DHTXX_eq (b1 b2 b3 b4 : Nat) (h2 : b2 < 256) :
    validate_DHTXX b1 b2 b3 b4 =
      (decide ((dhtxxHum b3 b4 ≤ 110) ∧ (dhtxxTemp b1 b2 ≥ -50) ∧
               (dhtxxTemp b1 b2 ≤ 135)),
       dhtxxTemp b1 b2, dhtxxHum b3 b4) := by
  unfold validate_DHTXX dhtxxTemp dhtxxHum
  rw [and_127_eq_mod, and_128_eq_of_lt b2 h2]
  by_cases hb : 128 ≤ b2
  · rw [if_pos hb, if_pos hb]
    have hne : (128 : Nat) ≠ 0 := by norm_num
    rw [if_pos hne]
    simp only [Nat.shiftLeft_eq]
    norm_num [div_neg]
  · rw [if_neg hb, if_neg hb]
    have hz : ¬((0 : Nat) ≠ 0) := by norm_num
    rw [if_neg hz]
    norm_num [Nat.shiftLeft_eq]

lemma decode_dhtxx_chk_fail (s : SensorState) (b0 b1 b2 b3 b4 : Nat)
    (h0 : b0 < 256) (h1 : b1 < 256) (h2 : b2 < 256) (h3 : b3 < 256)
    (h4 : b4 < 256)
    (hcode : s.code = assembleFrame b0 b1 b2 b3 b4)
    (hne : (b1 + b2 + b3 + b4) % 256 ≠ b0) :
    decode_dhtxx s = { s with status := DHT_BAD_CHECKSUM, new_data := true } := by
  obtain ⟨e0, e1, e2, e3, e4⟩ := assembleFrame_bytes b0 b1 b2 b3 b4 h0 h1 h2 h3 h4
  simp only [decode_dhtxx, hcode, e0, e1, e2, e3, e4, and_255_eq_mod]
  rw [if_neg hne]

lemma decode_dhtxx_chk_ok (s : SensorState) (b0 b1 b2 b3 b4 : Nat)
    (h0 : b0 < 256) (h1 : b1 < 256) (h2 : b2 < 256) (h3 : b3 < 256)
    (h4 : b4 < 256)
    (hcode : s.code = assembleFrame b0 b1 b2 b3 b4)
    (heq : (b1 + b2 + b3 + b4) % 256 = b0) :
    decode_dhtxx s =
      if (interpModel s.model b1 b2 b3 b4).1 then
        { s with temperature := (interpModel s.model b1 b2 b3 b4).2.1,
                 humidity := (interpModel s.model b1 b2 b3 b4).2.2,
                 status := DHT_GOOD, new_data := true }
      else
        { s with status := DHT_BAD_DATA, new_data := true } := by
  obtain ⟨e0, e1, e2, e3, e4⟩ := assembleFrame_bytes b0 b1 b2 b3 b4 h0 h1 h2 h3 h4
  simp only [decode_dhtxx, interpModel, hcode, e0, e1, e2, e3, e4, and_255_eq_mod,
    heq, if_pos, eq_self_iff_true, if_true]

/-! ## Claims about frame interpretation -/

/-- C2: for every 40-bit frame with bytes `b0..b4` (`b0` the low byte) and
any configured variant, interpretation returns status `BAD_CHECKSUM` if and
only if `b0` differs from `(b1 + b2 + b3 + b4) mod 256`; with `b0` equal to
that sum the result is never `BAD_CHECKSUM`, and with `b0` different it
always is, regardless of variant. -/
theorem c2_checksum_iff (s : SensorState) (b0 b1 b2 b3 b4 : Nat)
    (h0 : b0 < 256) (h1 : b1 < 256) (h2 : b2 < 256) (h3 : b3 < 256)
    (h4 : b4 < 256)
    (hcode : s.code = assembleFrame b0 b1 b2 b3 b4) :
    (decode_dhtxx s).status = DHT_BAD_CHECKSUM ↔
      b0 ≠ (b1 + b2 + b3 + b4) % 256 := by
  by_cases hc : (b1 + b2 + b3 + b4) % 256 = b0
  · rw [decode_dhtxx_chk_ok s b0 b1 b2 b3 b4 h0 h1 h2 h3 h4 hcode hc]
    have hb0 : b0 = (b1 + b2 + b3 + b4) % 256 := hc.symm
    split_ifs <;> simp [DHT_GOOD, DHT_BAD_DATA, DHT_BAD_CHECKSUM, hb0]
  · rw [decode_dhtxx_chk_fail s b0 b1 b2 b3 b4 h0 h1 h2 h3 h4 hcode hc]
    simp [DHT_BAD_CHECKSUM]
    omega

/-- C3: for every checksum-valid frame under the DHTXX variant, the decoded
temperature is `((b2 AND 0x7F) * 256 + b1) / 10`, negated exactly when bit 7
of `b2` is set, humidity is `(b4 * 256 + b3) / 10`, and the status is `GOOD`
exactly when `humidity ≤ 110` and `-50 ≤ temperature ≤ 135`, otherwise
`BAD_DATA`. -/
theorem c3_dhtxx_variant (s : SensorState) (b0 b1 b2 b3 b4 : Nat)
    (h1 : b1 < 256) (h2 : b2 < 256) (h3 : b3 < 256) (h4 : b4 < 256)
    (hm : s.model = DHTXX)
    (hcode : s.code = assembleFrame b0 b1 b2 b3 b4)
    (hchk : b0 = (b1 + b2 + b3 + b4) % 256) :
    ((decode_dhtxx s).status = DHT_GOOD ↔
      (dhtxxHum b3 b4 ≤ 110 ∧ -50 ≤ dhtxxTemp b1 b2 ∧ dhtxxTemp b1 b2 ≤ 135)) ∧
    ((decode_dhtxx s).status = DHT_GOOD ∨
      (decode_dhtxx s).status = DHT_BAD_DATA) ∧
    ((decode_dhtxx s).status = DHT_GOOD →
      (decode_dhtxx s).temperature = dhtxxTemp b1 b2 ∧
      (decode_dhtxx s).humidity = dhtxxHum b3 b4) := by
  have h0 : b0 < 256 := by
    rw [hchk]; exact Nat.mod_lt _ (by norm_num)
  rw [decode_dhtxx_chk_ok s b0 b1 b2 b3 b4 h0 h1 h2 h3 h4 hcode hchk.symm]
  have hmm : interpModel s.model b1 b2 b3 b4 = validate_DHTXX b1 b2 b3 b4 := by
    rw [interpModel, hm]
    norm_num [DHTXX, DHT11]
  rw [hmm, validate_DHTXX_eq b1 b2 b3 b4 h2]
  simp only [decide_eq_true_eq]
  split_ifs with hv
  · exact ⟨⟨fun _ => ⟨hv.1, hv.2.1, hv.2.2⟩, fun _ => rfl⟩, Or.inl rfl,
      fun _ => ⟨rfl, rfl⟩⟩
  · have hne : DHT_BAD_DATA ≠ DHT_GOOD := by decide
    exact ⟨⟨fun h => absurd h hne, fun hb => absurd ⟨hb.1, hb.2.1, hb.2.2⟩ hv⟩,
      Or.inr rfl, fun h => absurd h hne⟩

/-- C4: for every checksum-valid frame under the AUTO variant, the DHTXX
interpretation is attempted first and the DHT11 interpretation is applied
to the same bytes exactly when the DHTXX interpretation is invalid; when
DHTXX is valid, AUTO returns the DHTXX result, and AUTO yields `BAD_DATA`
exactly when both interpretations are invalid. -/
theorem c4_auto_fallback (s : SensorState) (b0 b1 b2 b3 b4 : Nat)
    (h1 : b1 < 256) (h2 : b2 < 256) (h3 : b3 < 256) (h4 : b4 < 256)
    (hm : s.model = DHTAUTO)
    (hcode : s.code = assembleFrame b0 b1 b2 b3 b4)
    (hchk : b0 = (b1 + b2 + b3 + b4) % 256) :
    ((validate_DHTXX b1 b2 b3 b4).1 = true →
      (decode_dhtxx s).status = DHT_GOOD ∧
      (decode_dhtxx s).temperature = (validate_DHTXX b1 b2 b3 b4).2.1 ∧
      (decode_dhtxx s).humidity = (validate_DHTXX b1 b2 b3 b4).2.2) ∧
    ((validate_DHTXX b1 b2 b3 b4).1 = false →
      (validate_DHT11 b1 b2 b3 b4).1 = true →
      (decode_dhtxx s).status = DHT_GOOD ∧
      (decode_dhtxx s).temperature = (validate_DHT11 b1 b2 b3 b4).2.1 ∧
      (decode_dhtxx s).humidity = (validate_DHT11 b1 b2 b3 b4).2.2) ∧
    ((decode_dhtxx s).status = DHT_BAD_DATA ↔
      ((validate_DHTXX b1 b2 b3 b4).1 = false ∧
       (validate_DHT11 b1 b2 b3 b4).1 = false)) := by
  have h0 : b0 < 256 := by rw [hchk]; exact Nat.mod_lt _ (by norm_num)
  rw [decode_dhtxx_chk_ok s b0 b1 b2 b3 b4 h0 h1 h2 h3 h4 hcode hchk.symm]
  have hmm : interpModel s.model b1 b2 b3 b4 =
      (if (validate_DHTXX b1 b2 b3 b4).1 then validate_DHTXX b1 b2 b3 b4
       else validate_DHT11 b1 b2 b3 b4) := by
    rw [interpModel, hm]
    norm_num [DHTAUTO, DHT11, DHTXX]
  rw [hmm]
  have hgb : DHT_GOOD ≠ DHT_BAD_DATA := by decide
  by_cases hx : (validate_DHTXX b1 b2 b3 b4).1 = true
  · simp [hx, hgb]
  · simp only [Bool.not_eq_true] at hx
    by_cases h11 : (validate_DHT11 b1 b2 b3 b4).1 = true
    · simp [hx, h11, hgb]
    · simp only [Bool.not_eq_true] at h11
      simp [hx, h11]

/-- C5: for every checksum-valid frame under the DHT11 variant, the status
is `GOOD` exactly when `b1 = 0`, `b3 = 0`, `b2 ≤ 60` and `9 ≤ b4 ≤ 90`
(otherwise `BAD_DATA`), and a `GOOD` frame decodes temperature `b2` and
humidity `b4` as integers. -/
theorem c5_dht11_variant (s : SensorState) (b0 b1 b2 b3 b4 : Nat)
    (h1 : b1 < 256) (h2 : b2 < 256) (h3 : b3 < 256) (h4 : b4 < 256)
    (hm : s.model = DHT11)
    (hcode : s.code = assembleFrame b0 b1 b2 b3 b4)
    (hchk : b0 = (b1 + b2 + b3 + b4) % 256) :
    ((decode_dhtxx s).status = DHT_GOOD ↔
      (b1 = 0 ∧ b3 = 0 ∧ b2 ≤ 60 ∧ 9 ≤ b4 ∧ b4 ≤ 90)) ∧
    ((decode_dhtxx s).status = DHT_GOOD ∨
      (decode_dhtxx s).status = DHT_BAD_DATA) ∧
    ((decode_dhtxx s).status = DHT_GOOD →
      (decode_dhtxx s).temperature = (b2 : Rat) ∧
      (decode_dhtxx s).humidity = (b4 : Rat)) := by
  have h0 : b0 < 256 := by rw [hchk]; exact Nat.mod_lt _ (by norm_num)
  rw [decode_dhtxx_chk_ok s b0 b1 b2 b3 b4 h0 h1 h2 h3 h4 hcode hchk.symm]
  have hmm : interpModel s.model b1 b2 b3 b4 = validate_DHT11 b1 b2 b3 b4 := by
    rw [interpModel, hm]
    norm_num
  rw [hmm, validate_DHT11_eq]
  simp only [decide_eq_true_eq]
  split_ifs with hv
  · exact ⟨⟨fun _ => hv, fun _ => rfl⟩, Or.inl rfl, fun _ => ⟨rfl, rfl⟩⟩
  · have hne : DHT_BAD_DATA ≠ DHT_GOOD := by decide
    exact ⟨⟨fun h => absurd h hne, fun hb => absurd hb hv⟩, Or.inr rfl,
      fun h => absurd h hne⟩

/-- Witness for C2: the frame `(b0, b1, b2, b3, b4) = (10, 1, 2, 3, 4)` has
a correct checksum and is not `BAD_CHECKSUM`; replacing `b0` with 11 makes
it `BAD_CHECKSUM`. -/
theorem c2_witness :
    (decode_dhtxx { initState DHTAUTO 0 with
      code := assembleFrame 10 1 2 3 4 }).status ≠ DHT_BAD_CHECKSUM ∧
    (decode_dhtxx { initState DHTAUTO 0 with
      code := assembleFrame 11 1 2 3 4 }).status = DHT_BAD_CHECKSUM := by
  constructor
  · have h := c2_checksum_iff { initState DHTAUTO 0 with
      code := assembleFrame 10 1 2 3 4 } 10 1 2 3 4 (by norm_num) (by norm_num)
      (by norm_num) (by norm_num) (by norm_num) rfl
    intro hbad
    exact (h.mp hbad) (by norm_num)
  · have h := c2_checksum_iff { initState DHTAUTO 0 with
      code := assembleFrame 11 1 2 3 4 } 11 1 2 3 4 (by norm_num) (by norm_num)
      (by norm_num) (by norm_num) (by norm_num) rfl
    exact h.mpr (by norm_num)

/-- Witness for C3: bytes `b2 = 0x81`, `b1 = 0x90` (with `b3 = b4 = 0` and
correct checksum 0x11) decode under DHTXX to a GOOD reading with
temperature `-40.0` and humidity `0.0`. -/
theorem c3_witness :
    (decode_dhtxx { initState DHTXX 0 with
      code := assembleFrame 17 144 129 0 0 }).status = DHT_GOOD ∧
    (decode_dhtxx { initState DHTXX 0 with
      code := assembleFrame 17 144 129 0 0 }).temperature = -40 ∧
    (decode_dhtxx { initState DHTXX 0 with
      code := assembleFrame 17 144 129 0 0 }).humidity = 0 := by
  have h := c3_dhtxx_variant { initState DHTXX 0 with
      code := assembleFrame 17 144 129 0 0 } 17 144 129 0 0 (by norm_num)
    (by norm_num) (by norm_num) (by norm_num) rfl rfl (by norm_num)
  have hg := h.1.mpr (by norm_num [dhtxxTemp, dhtxxHum])
  refine ⟨hg, ?_, ?_⟩
  · rw [(h.2.2 hg).1]; norm_num [dhtxxTemp]
  · rw [(h.2.2 hg).2]; norm_num [dhtxxHum]

/-- Witness for C4: the checksum-valid frame with `(b1, b2, b3, b4) =
(0, 5, 0, 0)` is valid under DHTXX, so AUTO takes the DHTXX result
(temperature 128.0); with `(0, 200, 0, 50)` DHTXX is invalid and DHT11
invalid, so AUTO yields `BAD_DATA`. -/
theorem c4_witness :
    (decode_dhtxx { initState DHTAUTO 0 with
      code := assembleFrame 5 0 5 0 0 }).status = DHT_GOOD ∧
    (decode_dhtxx { initState DHTAUTO 0 with
      code := assembleFrame 5 0 5 0 0 }).temperature =
      (validate_DHTXX 0 5 0 0).2.1 ∧
    (decode_dhtxx { initState DHTAUTO 0 with
      code := assembleFrame 250 0 200 0 50 }).status = DHT_BAD_DATA := by
  have h := c4_auto_fallback { initState DHTAUTO 0 with
      code := assembleFrame 5 0 5 0 0 } 5 0 5 0 0 (by norm_num) (by norm_num)
    (by norm_num) (by norm_num) rfl rfl (by norm_num)
  have hx : (validate_DHTXX 0 5 0 0).1 = true := by
    rw [validate_DHTXX_eq 0 5 0 0 (by norm_num)]
    simp only [decide_eq_true_eq]
    norm_num [dhtxxTemp, dhtxxHum]
  have h2 := c4_auto_fallback { initState DHTAUTO 0 with
      code := assembleFrame 250 0 200 0 50 } 250 0 200 0 50 (by norm_num)
    (by norm_num) (by norm_num) (by norm_num) rfl rfl (by norm_num)
  have hf1 : (validate_DHTXX 0 200 0 50).1 = false := by
    rw [validate_DHTXX_eq 0 200 0 50 (by norm_num)]
    simp only [decide_eq_false_iff_not]
    norm_num [dhtxxTemp, dhtxxHum]
  have hf2 : (validate_DHT11 0 200 0 50).1 = false := by
    rw [validate_DHT11_eq]
    simp only [decide_eq_false_iff_not]
    norm_num
  exact ⟨(h.1 hx).1, (h.1 hx).2.1, h2.2.2.mpr ⟨hf1, hf2⟩⟩

/-- Witness for C5: under DHT11, `(b1, b2, b3, b4) = (0, 60, 0, 90)` with
checksum 150 is GOOD with temperature 60 and humidity 90, while
`(0, 61, 0, 90)` with checksum 151 is `BAD_DATA`. -/
theorem c5_witness :
    (decode_dhtxx { initState DHT11 0 with
      code := assembleFrame 150 0 60 0 90 }).status = DHT_GOOD ∧
    (decode_dhtxx { initState DHT11 0 with
      code := assembleFrame 150 0 60 0 90 }).temperature = 60 ∧
    (decode_dhtxx { initState DHT11 0 with
      code := assembleFrame 150 0 60 0 90 }).humidity = 90 ∧
    (decode_dhtxx { initState DHT11 0 with
      code := assembleFrame 151 0 61 0 90 }).status = DHT_BAD_DATA := by
  have h := c5_dht11_variant { initState DHT11 0 with
      code := assembleFrame 150 0 60 0 90 } 150 0 60 0 90 (by norm_num)
    (by norm_num) (by norm_num) (by norm_num) rfl rfl (by norm_num)
  have hg := h.1.mpr (by norm_num)
  have h2 := c5_dht11_variant { initState DHT11 0 with
      code := assembleFrame 151 0 61 0 90 } 151 0 61 0 90 (by norm_num)
    (by norm_num) (by norm_num) (by norm_num) rfl rfl (by norm_num)
  have hng : ¬ (decode_dhtxx { initState DHT11 0 with
      code := assembleFrame 151 0 61 0 90 }).status = DHT_GOOD := by
    intro hgood
    have := h2.1.mp hgood
    omega
  refine ⟨hg, ?_, ?_, ?_⟩
  · rw [(h.2.2 hg).1]; norm_num
  · rw [(h.2.2 hg).2]; norm_num
  · rcases h2.2.1 with hcase | hcase
    · exact absurd hcase hng
    · exact hcase

/-! ## Step lemmas for the edge-timing state machine -/

lemma decode_dhtxx_bits (s : SensorState) : (decode_dhtxx s).bits = s.bits := by
  simp only [decode_dhtxx]
  split_ifs <;> rfl

lemma decode_dhtxx_new_data (s : SensorState) :
    (decode_dhtxx s).new_data = true := by
  simp only [decode_dhtxx]
  split_ifs <;> rfl

lemma step_gap (s : SensorState) (g : Nat) (hg : g > 10000) :
    rising_edge_len s g =
      ({ s with in_code := true, bits := -2, code := 0 }, none) := by
  unfold rising_edge_len
  rw [if_pos hg]

lemma step_idle (s : SensorState) (d : Nat) (hin : s.in_code = false)
    (hd : d ≤ 10000) :
    rising_edge_len s d = (s, none) := by
  have h1 : ¬ (d > 10000) := by omega
  simp [rising_edge_len, h1, hin]

lemma step_discard (s : SensorState) (d : Nat) (hin : s.in_code = true)
    (hb : s.bits < 0) (hd : d ≤ 10000) :
    rising_edge_len s d = ({ s with bits := s.bits + 1 }, none) := by
  have h1 : ¬ (d > 10000) := by omega
  have h2 : ¬ (s.bits + 1 ≥ 1) := by omega
  have h3 : ¬ (s.bits + 1 = 40) := by omega
  simp [rising_edge_len, h1, h2, h3, hin]

lemma shiftLeft_one (n : Nat) : n <<< 1 = 2 * n := by
  rw [Nat.shiftLeft_eq]
  ring

lemma step_data (s : SensorState) (d : Nat) (hin : s.in_code = true)
    (hb0 : 0 ≤ s.bits) (hb38 : s.bits ≤ 38) (hv : validPulse d) :
    rising_edge_len s d =
      ({ s with bits := s.bits + 1, code := 2 * s.code + classifyBit d },
        none) := by
  obtain ⟨hv1, hv2⟩ := hv
  have h1 : ¬ (d > 10000) := by omega
  have h2 : s.bits + 1 ≥ 1 := by omega
  have h3 : ¬ (s.bits + 1 = 40) := by omega
  by_cases hc : d > 100 <;>
    simp [rising_edge_len, classifyBit, h1, h2, h3, hin, hv1, hv2, hc,
      shiftLeft_one]

lemma step_data_emit (s : SensorState) (d : Nat) (hin : s.in_code = true)
    (hb : s.bits = 39) (hv : validPulse d) :
    rising_edge_len s d =
      ({ decode_dhtxx
           { s with bits := 40, code := 2 * s.code + classifyBit d }
          with in_code := false },
        some (2 * s.code + classifyBit d)) := by
  obtain ⟨hv1, hv2⟩ := hv
  have h1 : ¬ (d > 10000) := by omega
  have h2 : s.bits + 1 ≥ 1 := by omega
  have h3 : s.bits + 1 = 40 := by omega
  by_cases hc : d > 100 <;>
    simp [rising_edge_len, classifyBit, h1, h2, h3, hin, hv1, hv2, hc,
      shiftLeft_one, hb]

lemma step_abort (s : SensorState) (d : Nat) (hin : s.in_code = true)
    (hb0 : 0 ≤ s.bits) (hd : d ≤ 10000) (hnv : ¬ validPulse d) :
    rising_edge_len s d =
      ({ s with bits := s.bits + 1, code := 2 * s.code, in_code := false },
        none) := by
  have h1 : ¬ (d > 10000) := by omega
  have h2 : s.bits + 1 ≥ 1 := by omega
  have h4 : ¬ (60 ≤ d ∧ d ≤ 150) := hnv
  simp [rising_edge_len, h1, h2, h4, hin, shiftLeft_one]

/-! ## Run lemmas -/

lemma processEdges_nil (s : SensorState) : processEdges s [] = (s, []) := rfl

lemma processEdges_cons (s : SensorState) (len : Nat) (rest : List Nat) :
    processEdges s (len :: rest) =
      ((processEdges (rising_edge_len s len).1 rest).1,
       (rising_edge_len s len).2.toList ++
         (processEdges (rising_edge_len s len).1 rest).2) := rfl

lemma accumBits_nil (c : Nat) : accumBits c [] = c := rfl

lemma accumBits_cons (c : Nat) (d : Nat) (ds : List Nat) :
    accumBits c (d :: ds) = accumBits (2 * c + classifyBit d) ds := rfl

lemma accumBits_append_singleton (c : Nat) (ds : List Nat) (d : Nat) :
    accumBits c (ds ++ [d]) = 2 * accumBits c ds + classifyBit d := by
  simp [accumBits, List.foldl_append]

lemma accumBits_eq_beConcat (ds : List Nat) :
    accumBits 0 ds = beConcat (ds.map classifyBit) := by
  rw [beConcat, List.foldl_map]
  rfl

lemma run_data (ds : List Nat) : ∀ (s : SensorState) (k : Nat),
    s.in_code = true → s.bits = (k : Int) → k + ds.length ≤ 39 →
    (∀ d ∈ ds, validPulse d) →
    processEdges s ds =
      ({ s with bits := ((k + ds.length : Nat) : Int),
                code := accumBits s.code ds }, []) := by
  induction ds with
  | nil =>
    intro s k hin hb hlen hv
    simp [processEdges_nil, accumBits_nil, ← hb]
  | cons d rest ih =>
    intro s k hin hb hlen hv
    simp only [List.length_cons] at hlen
    rw [processEdges_cons]
    rw [step_data s d hin (by omega) (by omega) (hv d (by simp))]
    dsimp only
    have hstep := ih
      { s with bits := s.bits + 1, code := 2 * s.code + classifyBit d }
      (k + 1) hin
      (by show s.bits + 1 = ((k + 1 : Nat) : Int); omega)
      (by omega)
      (fun x hx => hv x (by simp [hx]))
    rw [hstep]
    simp only [accumBits_cons, List.length_cons, Option.toList_none,
      List.nil_append]
    have hkk : k + 1 + rest.length = k + (rest.length + 1) := by omega
    rw [hkk]

lemma run_emit (ds : List Nat) : ∀ (s : SensorState) (k : Nat),
    s.in_code = true → s.bits = (k : Int) → k + ds.length = 40 →
    1 ≤ ds.length → (∀ d ∈ ds, validPulse d) →
    processEdges s ds =
      ({ decode_dhtxx
           { s with bits := 40, code := accumBits s.code ds }
          with in_code := false },
        [accumBits s.code ds]) := by
  induction ds with
  | nil =>
    intro s k _ _ _ hone _
    simp at hone
  | cons d rest ih =>
    intro s k hin hb hlen hone hv
    simp only [List.length_cons] at hlen
    by_cases hr : rest = []
    · subst hr
      simp only [List.length_nil] at hlen
      have hk : k = 39 := by omega
      rw [processEdges_cons]
      rw [step_data_emit s d hin (by omega) (hv d (by simp))]
      dsimp only
      rw [processEdges_nil]
      simp [accumBits_cons, accumBits_nil]
    · have hrl : 1 ≤ rest.length := by
        rcases rest with _ | ⟨a, t⟩
        · exact absurd rfl hr
        · simp
      rw [processEdges_cons]
      rw [step_data s d hin (by omega) (by omega) (hv d (by simp))]
      dsimp only
      have hstep := ih
        { s with bits := s.bits + 1, code := 2 * s.code + classifyBit d }
        (k + 1) hin
        (by show s.bits + 1 = ((k + 1 : Nat) : Int); omega)
        (by omega) hrl
        (fun x hx => hv x (by simp [hx]))
      rw [hstep]
      simp only [accumBits_cons, Option.toList_none, List.nil_append]

lemma run_frame (s : SensorState) (g d1 d2 : Nat) (ds : List Nat)
    (hg : g > 10000) (hd1 : d1 ≤ 10000) (hd2 : d2 ≤ 10000)
    (hlen : ds.length = 40) (hv : ∀ d ∈ ds, validPulse d) :
    processEdges s ([g, d1, d2] ++ ds) =
      ({ decode_dhtxx
           { s with in_code := true, bits := 40, code := accumBits 0 ds }
          with in_code := false },
        [accumBits 0 ds]) := by
  rw [show ([g, d1, d2] ++ ds) = g :: d1 :: d2 :: ds from rfl]
  rw [processEdges_cons, step_gap s g hg]
  dsimp only
  rw [processEdges_cons,
    step_discard { s with in_code := true, bits := -2, code := 0 } d1 rfl
      (by norm_num) hd1]
  dsimp only
  rw [processEdges_cons,
    step_discard { s with in_code := true, bits := -2 + 1, code := 0 } d2 rfl
      (by norm_num) hd2]
  dsimp only
  rw [run_emit ds { s with in_code := true, bits := -2 + 1 + 1, code := 0 } 0
    rfl (by norm_num) (by omega) (by omega) hv]
  dsimp only
  norm_num

/-! ## Claim about the edge-timing state machine -/

/-- C1: the decoder's edge handler: an interval above 10000 µs (re)starts a
frame with `in_code = true`, `bits = -2`, `code = 0`, silently discarding
any frame in progress; while `bits` is negative the next intervals are
consumed without producing data bits; a valid interval in `[60, 150]` µs
appends one bit (1 exactly when the interval exceeds 100 µs) to the
left-shifted accumulator; an interval outside `[60, 150]` after the discard
slots aborts the frame (`in_code = false`, nothing emitted; a later gap
restarts by the first part); and a gap, two discard intervals and 40 valid
data intervals emit exactly one frame equal to the big-endian
concatenation of the 40 classified bits. -/
theorem c1_edge_state_machine :
    (∀ (s : SensorState) (g : Nat), g > 10000 →
      rising_edge_len s g =
        ({ s with in_code := true, bits := -2, code := 0 }, none)) ∧
    (∀ (s : SensorState) (d : Nat), s.in_code = true → s.bits < 0 →
      d ≤ 10000 →
      rising_edge_len s d = ({ s with bits := s.bits + 1 }, none)) ∧
    (∀ (s : SensorState) (d : Nat), s.in_code = true → 0 ≤ s.bits →
      s.bits ≤ 38 → validPulse d →
      rising_edge_len s d =
        ({ s with bits := s.bits + 1,
                  code := 2 * s.code + classifyBit d }, none)) ∧
    (∀ (s : SensorState) (d : Nat), s.in_code = true → 0 ≤ s.bits →
      d ≤ 10000 → ¬ validPulse d →
      rising_edge_len s d =
        ({ s with bits := s.bits + 1, code := 2 * s.code,
                  in_code := false }, none)) ∧
    (∀ (s : SensorState) (d : Nat), s.in_code = false → d ≤ 10000 →
      rising_edge_len s d = (s, none)) ∧
    (∀ (s : SensorState) (g d1 d2 : Nat) (ds : List Nat), g > 10000 →
      d1 ≤ 10000 → d2 ≤ 10000 → ds.length = 40 →
      (∀ d ∈ ds, validPulse d) →
      (processEdges s ([g, d1, d2] ++ ds)).2 =
        [beConcat (ds.map classifyBit)] ∧
      (processEdges s ([g, d1, d2] ++ ds)).1.in_code = false) := by
  refine ⟨step_gap, ?_, step_data, step_abort, step_idle, ?_⟩
  · intro s d hin hb hd
    exact step_discard s d hin hb hd
  · intro s g d1 d2 ds hg hd1 hd2 hlen hv
    rw [run_frame s g d1 d2 ds hg hd1 hd2 hlen hv]
    exact ⟨by rw [accumBits_eq_beConcat], rfl⟩

/-- Witness for C1 at concrete inputs: a 15000 µs gap restarts the frame; an
80 µs interval at `bits = -2` is consumed without data; a 130 µs pulse at
`bits = 3` appends a 1 bit; a 200 µs pulse aborts; an idle decoder ignores
an 80 µs interval; and the spec's example stream (gap, two discards, then
`[70, 130, 70]` followed by 37 more 70 µs pulses) emits exactly the
accumulator `2 ^ 38`. -/
theorem c1_witness :
    rising_edge_len (initState DHTAUTO 0) 15000 =
      ({ initState DHTAUTO 0 with in_code := true, bits := -2, code := 0 },
        none) ∧
    rising_edge_len
        { initState DHTAUTO 0 with in_code := true, bits := -2 } 80 =
      ({ initState DHTAUTO 0 with in_code := true, bits := -1 }, none) ∧
    rising_edge_len
        { initState DHTAUTO 0 with in_code := true, bits := 3, code := 5 }
        130 =
      ({ initState DHTAUTO 0 with in_code := true, bits := 4, code := 11 },
        none) ∧
    rising_edge_len
        { initState DHTAUTO 0 with in_code := true, bits := 3, code := 5 }
        200 =
      ({ initState DHTAUTO 0 with in_code := false, bits := 4, code := 10 },
        none) ∧
    rising_edge_len (initState DHTAUTO 0) 80 = (initState DHTAUTO 0, none) ∧
    (processEdges (initState DHTAUTO 0)
        ([15000, 80, 80] ++ ([70, 130, 70] ++ List.replicate 37 70))).2 =
      [beConcat (([70, 130, 70] ++ List.replicate 37 70).map classifyBit)] ∧
    beConcat (([70, 130, 70] ++ List.replicate 37 70).map classifyBit) =
      2 ^ 38 := by
  obtain ⟨h1, h2, h3, h4, h5, h6⟩ := c1_edge_state_machine
  refine ⟨h1 _ 15000 (by norm_num), ?_, ?_, ?_, h5 _ 80 rfl (by norm_num),
    ?_, by decide⟩
  · exact h2 _ 80 rfl (by norm_num) (by norm_num)
  · exact h3 _ 130 rfl (by norm_num) (by norm_num) (by decide)
  · exact h4 _ 200 rfl (by norm_num) (by norm_num) (by decide)
  · exact (h6 _ 15000 80 80 ([70, 130, 70] ++ List.replicate 37 70)
      (by norm_num) (by norm_num) (by norm_num) (by rfl) (by decide)).1

/-! ## Byte order of the accumulator -/

lemma beConcat_nil : beConcat [] = 0 := rfl

lemma beConcat_foldl_init (l : List Nat) : ∀ a : Nat,
    l.foldl (fun x b => 2 * x + b) a = a * 2 ^ l.length + beConcat l := by
  induction l with
  | nil => intro a; simp [beConcat]
  | cons b t ih =>
    intro a
    simp only [beConcat, List.foldl_cons, List.length_cons]
    rw [ih (2 * a + b), ih (2 * 0 + b)]
    ring

lemma beConcat_append (l1 l2 : List Nat) :
    beConcat (l1 ++ l2) = beConcat l1 * 2 ^ l2.length + beConcat l2 := by
  simp only [beConcat, List.foldl_append]
  exact beConcat_foldl_init l2 _

lemma beConcat_lt (l : List Nat) (h : ∀ b ∈ l, b ≤ 1) :
    beConcat l < 2 ^ l.length := by
  induction l with
  | nil => simp [beConcat]
  | cons b t ih =>
    have hb : b ≤ 1 := h b (by simp)
    have ht := ih (fun x hx => h x (by simp [hx]))
    simp only [beConcat, List.foldl_cons, List.length_cons]
    rw [beConcat_foldl_init t (2 * 0 + b)]
    have h1 : (2 * 0 + b) * 2 ^ t.length ≤ 2 ^ t.length := by
      have hb1 : 2 * 0 + b ≤ 1 := by omega
      calc (2 * 0 + b) * 2 ^ t.length ≤ 1 * 2 ^ t.length :=
            Nat.mul_le_mul_right _ hb1
        _ = 2 ^ t.length := one_mul _
    have h2 : 2 ^ (t.length + 1) = 2 ^ t.length + 2 ^ t.length := by ring
    omega

lemma classifyBit_le_one (d : Nat) : classifyBit d ≤ 1 := by
  unfold classifyBit
  split_ifs <;> norm_num

/-- Counterexample for C6: in the concrete run whose first eight data bits
are ones (130 µs pulses) and whose remaining 32 bits are zeros (70 µs), the
emitted accumulator is `0xFF00000000`; its low byte -- extracted as `b0` by
the interpreter -- is 0, while the byte formed by the first eight data bits
is 255, so the first eight data bits do not form `b0`. -/
theorem c6_counterexample :
    (processEdges (initState DHTAUTO 0)
        ([15000, 80, 80] ++
          (List.replicate 8 130 ++ List.replicate 32 70))).2 =
      [1095216660480] ∧
    (1095216660480 : Nat) &&& 0xFF = 0 ∧
    beConcat (((List.replicate 8 130 ++ List.replicate 32 70).take 8).map
        classifyBit) = 255 ∧
    (0 : Nat) ≠ 255 := by
  refine ⟨by decide, by decide, by decide, by decide⟩

/-- C6 (amended): for every completed frame the checksum byte `b0` is the
least-significant byte of the 40-bit accumulator, but it is formed by the
LAST eight data bits shifted in (the checksum is transmitted last); the
FIRST eight data bits form the most-significant byte `b4`. -/
theorem c6_amended (s : SensorState) (g d1 d2 : Nat) (ds : List Nat)
    (hg : g > 10000) (hd1 : d1 ≤ 10000) (hd2 : d2 ≤ 10000)
    (hlen : ds.length = 40) (hv : ∀ d ∈ ds, validPulse d) :
    (processEdges s ([g, d1, d2] ++ ds)).2 = [accumBits 0 ds] ∧
    accumBits 0 ds &&& 0xFF = beConcat ((ds.drop 32).map classifyBit) ∧
    (accumBits 0 ds >>> 32) &&& 0xFF =
      beConcat ((ds.take 8).map classifyBit) := by
  have hbits : ∀ b ∈ ds.map classifyBit, b ≤ 1 := by
    intro b hb
    obtain ⟨d, _, rfl⟩ := List.mem_map.mp hb
    exact classifyBit_le_one d
  have hblen : (ds.map classifyBit).length = 40 := by simp [hlen]
  refine ⟨?_, ?_, ?_⟩
  · rw [run_frame s g d1 d2 ds hg hd1 hd2 hlen hv]
  · rw [accumBits_eq_beConcat, and_255_eq_mod, List.map_drop]
    set bs := ds.map classifyBit with hbs
    have hdl : (bs.drop 32).length = 8 := by rw [List.length_drop, hblen]
    have hlt : beConcat (bs.drop 32) < 256 := by
      have hx := beConcat_lt (bs.drop 32)
        (fun b hb => hbits b (List.drop_subset _ _ hb))
      rw [hdl] at hx
      norm_num at hx
      exact hx
    conv_lhs => rw [← List.take_append_drop 32 bs]
    rw [beConcat_append, hdl]
    have e8 : (2 : Nat) ^ 8 = 256 := by norm_num
    rw [e8]
    omega
  · rw [accumBits_eq_beConcat, and_255_eq_mod, Nat.shiftRight_eq_div_pow,
      List.map_take]
    set bs := ds.map classifyBit with hbs
    have htl : (bs.take 8).length = 8 := by
      rw [List.length_take, hblen]
      norm_num
    have hdl : (bs.drop 8).length = 32 := by rw [List.length_drop, hblen]
    have hltA : beConcat (bs.take 8) < 256 := by
      have hx := beConcat_lt (bs.take 8)
        (fun b hb => hbits b (List.take_subset _ _ hb))
      rw [htl] at hx
      norm_num at hx
      exact hx
    have hltB : beConcat (bs.drop 8) < 2 ^ 32 := by
      have hx := beConcat_lt (bs.drop 8)
        (fun b hb => hbits b (List.drop_subset _ _ hb))
      rw [hdl] at hx
      exact hx
    conv_lhs => rw [← List.take_append_drop 8 bs]
    rw [beConcat_append, hdl]
    rw [Nat.add_comm]
    rw [Nat.add_mul_div_right _ _ (by norm_num : 0 < (2 : Nat) ^ 32)]
    rw [Nat.div_eq_of_lt hltB, Nat.zero_add, Nat.mod_eq_of_lt hltA]

/-- Witness for C6 (amended) on the concrete run of `c6_counterexample`:
the low byte of the emitted accumulator equals the byte formed by the last
eight data bits and the high byte equals the byte formed by the first
eight. -/
theorem c6_witness :
    (processEdges (initState DHTAUTO 0)
        ([15000, 80, 80] ++
          (List.replicate 8 130 ++ List.replicate 32 70))).2 =
      [accumBits 0 (List.replicate 8 130 ++ List.replicate 32 70)] ∧
    accumBits 0 (List.replicate 8 130 ++ List.replicate 32 70) &&& 0xFF =
      beConcat (((List.replicate 8 130 ++ List.replicate 32 70).drop 32).map
        classifyBit) ∧
    (accumBits 0 (List.replicate 8 130 ++ List.replicate 32 70) >>> 32) &&&
        0xFF =
      beConcat (((List.replicate 8 130 ++ List.replicate 32 70).take 8).map
        classifyBit) :=
  c6_amended (initState DHTAUTO 0) 15000 80 80
    (List.replicate 8 130 ++ List.replicate 32 70) (by norm_num) (by norm_num)
    (by norm_num) (by rfl) (by decide)

/-! ## Invariant of the decoder state machine -/

/-- The reachability invariant of the decoder state: while a frame is being
accumulated, either we are still in the two discard slots (with an empty
accumulator), or the accumulator holds exactly `bits` data bits, each
produced by a valid pulse. -/
def DecInv (s : SensorState) : Prop :=
  s.in_code = true →
    (s.bits = -2 ∧ s.code = 0) ∨ (s.bits = -1 ∧ s.code = 0) ∨
    (0 ≤ s.bits ∧ s.bits ≤ 39 ∧ ∃ hist : List Nat,
      (hist.length : Int) = s.bits ∧ (∀ d ∈ hist, validPulse d) ∧
      s.code = accumBits 0 hist)

lemma DecInv_initState (model tick0 : Nat) : DecInv (initState model tick0) := by
  intro h
  simp [initState] at h

lemma DecInv_step (s : SensorState) (len : Nat) (hinv : DecInv s) :
    DecInv (rising_edge_len s len).1 ∧
    (∀ c, (rising_edge_len s len).2 = some c →
      (rising_edge_len s len).1.bits = 40 ∧
      ∃ hist : List Nat, hist.length = 40 ∧ (∀ d ∈ hist, validPulse d) ∧
        c = accumBits 0 hist) := by
  by_cases hg : len > 10000
  · rw [step_gap s len hg]
    constructor
    · intro _
      exact Or.inl ⟨rfl, rfl⟩
    · intro c hc
      simp at hc
  · by_cases hin : s.in_code = true
    · rcases hinv hin with ⟨hb, hc⟩ | ⟨hb, hc⟩ | ⟨hb0, hb39, hist, hl, hvh, hcode⟩
      · rw [step_discard s len hin (by omega) (by omega)]
        constructor
        · intro _
          exact Or.inr (Or.inl ⟨by show s.bits + 1 = -1; omega, hc⟩)
        · intro c hcx
          simp at hcx
      · rw [step_discard s len hin (by omega) (by omega)]
        constructor
        · intro _
          refine Or.inr (Or.inr ⟨by show (0 : Int) ≤ s.bits + 1; omega,
            by show s.bits + 1 ≤ 39; omega, [], ?_, ?_, ?_⟩)
          · show ((List.length [] : Nat) : Int) = s.bits + 1
            simp
            omega
          · intro d hd
            simp at hd
          · exact hc
        · intro c hcx
          simp at hcx
      · by_cases hv : validPulse len
        · by_cases hb38 : s.bits ≤ 38
          · rw [step_data s len hin hb0 hb38 hv]
            constructor
            · intro _
              refine Or.inr (Or.inr ⟨by show (0 : Int) ≤ s.bits + 1; omega,
                by show s.bits + 1 ≤ 39; omega, hist ++ [len], ?_, ?_, ?_⟩)
              · show (((hist ++ [len]).length : Nat) : Int) = s.bits + 1
                simp
                omega
              · intro d hd
                rcases List.mem_append.mp hd with hd | hd
                · exact hvh d hd
                · simp at hd
                  subst hd
                  exact hv
              · show 2 * s.code + classifyBit len = accumBits 0 (hist ++ [len])
                rw [accumBits_append_singleton, hcode]
            · intro c hcx
              simp at hcx
          · have hb39' : s.bits = 39 := by omega
            rw [step_data_emit s len hin hb39' hv]
            constructor
            · intro hx
              simp at hx
            · intro c hcx
              simp only [Option.some_inj] at hcx
              subst hcx
              constructor
              · dsimp only
                rw [decode_dhtxx_bits]
              · refine ⟨hist ++ [len], ?_, ?_, ?_⟩
                · have h39 : hist.length = 39 := by omega
                  simp [h39]
                · intro d hd
                  rcases List.mem_append.mp hd with hd | hd
                  · exact hvh d hd
                  · simp at hd
                    subst hd
                    exact hv
                · rw [accumBits_append_singleton, hcode]
        · rw [step_abort s len hin hb0 (by omega) hv]
          constructor
          · intro hx
            simp at hx
          · intro c hcx
            simp at hcx
    · have hin' : s.in_code = false := by
        rcases hq : s.in_code
        · rfl
        · exact absurd hq hin
      rw [step_idle s len hin' (by omega)]
      refine ⟨hinv, ?_⟩
      intro c hcx
      simp at hcx

lemma DecInv_run (ls : List Nat) : ∀ s : SensorState, DecInv s →
    DecInv (processEdges s ls).1 := by
  induction ls with
  | nil => intro s h; exact h
  | cons a t ih =>
    intro s h
    rw [processEdges_cons]
    exact ih _ (DecInv_step s a h).1

/-- C7: invariant of the decoder state machine, preserved by every edge
event from the initial state: an accumulator is handed to interpretation
only at a step where `bits` reaches exactly 40, and the handed value is the
accumulation of exactly 40 intervals each classified as a valid data pulse;
a partial accumulation from an aborted or discarded frame is never
interpreted. -/
theorem c7_only_complete_frames (model tick0 : Nat) (ls : List Nat)
    (len : Nat) (c : Nat)
    (hc : (rising_edge_len (processEdges (initState model tick0) ls).1
      len).2 = some c) :
    (rising_edge_len (processEdges (initState model tick0) ls).1 len).1.bits =
      40 ∧
    ∃ hist : List Nat, hist.length = 40 ∧ (∀ d ∈ hist, validPulse d) ∧
      c = accumBits 0 hist := by
  have hinv := DecInv_run ls (initState model tick0)
    (DecInv_initState model tick0)
  exact (DecInv_step _ len hinv).2 c hc

/-- Witness for C7: after a gap, two discards and 39 zero pulses, a 130 µs
pulse completes the frame with `bits = 40` and hands over the
accumulator 1. -/
theorem c7_witness :
    (rising_edge_len
        (processEdges (initState DHTAUTO 0)
          ([15000, 80, 80] ++ List.replicate 39 70)).1 130).1.bits = 40 ∧
    ∃ hist : List Nat, hist.length = 40 ∧ (∀ d ∈ hist, validPulse d) ∧
      1 = accumBits 0 hist :=
  c7_only_complete_frames DHTAUTO 0 ([15000, 80, 80] ++ List.replicate 39 70)
    130 1 (by decide)

/-! ## The read path -/

lemma decode_dhtxx_fields (s : SensorState) :
    (decode_dhtxx s).status = DHT_GOOD ∨
    ((decode_dhtxx s).temperature = s.temperature ∧
     (decode_dhtxx s).humidity = s.humidity) := by
  simp only [decode_dhtxx]
  split_ifs <;>
    first
      | exact Or.inl rfl
      | exact Or.inr ⟨rfl, rfl⟩

lemma decode_wrap_values (s X : SensorState)
    (ht : X.temperature = s.temperature) (hh : X.humidity = s.humidity) :
    (({ decode_dhtxx X with in_code := false }).temperature = s.temperature ∧
     ({ decode_dhtxx X with in_code := false }).humidity = s.humidity) ∨
    ({ decode_dhtxx X with in_code := false }).status = DHT_GOOD := by
  rcases decode_dhtxx_fields X with hg | ⟨h1, h2⟩
  · exact Or.inr hg
  · exact Or.inl ⟨h1.trans ht, h2.trans hh⟩

lemma rising_edge_len_values (s : SensorState) (len : Nat) :
    ((rising_edge_len s len).1.temperature = s.temperature ∧
     (rising_edge_len s len).1.humidity = s.humidity) ∨
    (rising_edge_len s len).1.status = DHT_GOOD := by
  simp only [rising_edge_len]
  split_ifs <;>
    first
      | exact Or.inl ⟨rfl, rfl⟩
      | exact decode_wrap_values s _ rfl rfl

lemma rising_edge_len_cases (s : SensorState) (len : Nat) :
    ((rising_edge_len s len).2 = none ∧
     (rising_edge_len s len).1.status = s.status ∧
     (rising_edge_len s len).1.new_data = s.new_data) ∨
    (rising_edge_len s len).1.new_data = true := by
  simp only [rising_edge_len]
  split_ifs <;>
    first
      | exact Or.inl ⟨rfl, rfl, rfl⟩
      | exact Or.inr (decode_dhtxx_new_data _)

lemma processEdges_no_data (ls : List Nat) : ∀ s : SensorState,
    (processEdges s ls).1.new_data = false →
    (processEdges s ls).1.status = s.status := by
  induction ls with
  | nil => intro s _; rfl
  | cons a t ih =>
    intro s h
    rw [processEdges_cons] at h ⊢
    have hst := ih (rising_edge_len s a).1 h
    rcases rising_edge_len_cases s a with ⟨_, hs, _⟩ | hn
    · exact hst.trans hs
    · -- the step set new_data, but then it would stay true
      exfalso
      have hmono : ∀ (ms : List Nat) (x : SensorState), x.new_data = true →
          (processEdges x ms).1.new_data = true := by
        intro ms
        induction ms with
        | nil => intro x hx; exact hx
        | cons b u ihm =>
          intro x hx
          rw [processEdges_cons]
          rcases rising_edge_len_cases x b with ⟨_, _, hnd⟩ | hnd
          · exact ihm _ (hnd.trans hx)
          · exact ihm _ hnd
      have := hmono t (rising_edge_len s a).1 hn
      rw [this] at h
      cases h

lemma waitLoop_count_le (batches : List (List Nat)) (fuel : Nat) :
    ∀ s : SensorState, (waitLoop s batches fuel).2 ≤ fuel := by
  induction fuel generalizing batches with
  | zero => intro s; simp [waitLoop]
  | succ n ih =>
    intro s
    simp only [waitLoop]
    split_ifs
    · omega
    · have := ih batches.tail (processEdges s (batches.headD [])).1
      omega

lemma waitLoop_no_data (batches : List (List Nat)) (fuel : Nat) :
    ∀ s : SensorState, (waitLoop s batches fuel).1.new_data = false →
    (waitLoop s batches fuel).1.status = s.status := by
  induction fuel generalizing batches with
  | zero => intro s _; rfl
  | succ n ih =>
    intro s h
    simp only [waitLoop] at h ⊢
    split_ifs at h ⊢ with hnd
    · rw [hnd] at h
      cases h
    · have hnd' : (processEdges s (batches.headD [])).1.new_data = false := by
        rcases hq : (processEdges s (batches.headD [])).1.new_data
        · rfl
        · exact absurd hq hnd
      have h1 := ih batches.tail (processEdges s (batches.headD [])).1 h
      have h2 := processEdges_no_data (batches.headD []) s hnd'
      exact h1.trans h2

/-- Counterexample for C8: a triggered read with no edges delivered ends
with status `TIMEOUT`, and the registered callback IS invoked with that
TIMEOUT datum (dht22.py lines 210-212 call the callback unconditionally),
contradicting the claim that the callback is never invoked for a TIMEOUT
reading. -/
theorem c8_counterexample :
    (read (initState DHTAUTO 0) [] true).2.1.1 = DHT_TIMEOUT ∧
    (read (initState DHTAUTO 0) [] true).2.2 =
      [(read (initState DHTAUTO 0) [] true).2.1] ∧
    (read (initState DHTAUTO 0) [] true).2.2 ≠ [] := by
  refine ⟨rfl, rfl, ?_⟩
  intro h
  exact absurd h (List.cons_ne_nil _ _)

/-- C8 (amended): when a callback is registered, it is invoked exactly once
per `read()` call, with the datum of that read, regardless of the status --
including TIMEOUT; with no callback registered it is never invoked. -/
theorem c8_callback_every_read (s : SensorState)
    (batches : List (List Nat)) :
    (read s batches true).2.2 = [(read s batches true).2.1] ∧
    (read s batches false).2.2 = [] :=
  ⟨rfl, rfl⟩

/-- C9: a triggered read resets the status to the default `TIMEOUT`, the
wait loop performs at most `fuel` (= 5 in `read`) polling increments and
always terminates, and when no frame completes during the window the
returned datum carries status `TIMEOUT`. -/
theorem c9_read_timeout :
    (∀ s : SensorState, (trigger s).status = DHT_TIMEOUT ∧
      (trigger s).new_data = false) ∧
    (∀ (s : SensorState) (batches : List (List Nat)) (fuel : Nat),
      (waitLoop s batches fuel).2 ≤ fuel) ∧
    (∀ (s : SensorState) (batches : List (List Nat)) (hasCb : Bool),
      (waitLoop (trigger s) batches 5).1.new_data = false →
      (read s batches hasCb).2.1.1 = DHT_TIMEOUT) := by
  refine ⟨fun s => ⟨rfl, rfl⟩, fun s b f => waitLoop_count_le b f s, ?_⟩
  intro s batches hasCb h
  show (waitLoop (trigger s) batches 5).1.status = DHT_TIMEOUT
  rw [waitLoop_no_data batches 5 (trigger s) h]
  rfl

/-- Witness for C9 at a concrete read with no edges delivered: status is
reset to TIMEOUT, at most 5 polls happen, and the returned status is
TIMEOUT. -/
theorem c9_witness :
    (trigger (initState DHTAUTO 0)).status = DHT_TIMEOUT ∧
    (waitLoop (trigger (initState DHTAUTO 0)) [] 5).2 ≤ 5 ∧
    (read (initState DHTAUTO 0) [] true).2.1.1 = DHT_TIMEOUT := by
  obtain ⟨h1, h2, h3⟩ := c9_read_timeout
  exact ⟨(h1 _).1, h2 _ [] 5, h3 _ [] true rfl⟩

/-- C10: a decode ending in `BAD_CHECKSUM` or `BAD_DATA` leaves the stored
temperature and humidity unchanged; an edge step either preserves them or
has produced a `GOOD` status; the initial values are 0.0; triggering a read
preserves them; and `read` returns exactly the stored
status/temperature/humidity -- so an error status is paired with the values
of the most recent GOOD reading (or the initial zeros). -/
theorem c10_error_keeps_values :
    (∀ s : SensorState,
      ((decode_dhtxx s).status = DHT_BAD_CHECKSUM ∨
        (decode_dhtxx s).status = DHT_BAD_DATA) →
      (decode_dhtxx s).temperature = s.temperature ∧
      (decode_dhtxx s).humidity = s.humidity) ∧
    (∀ (s : SensorState) (len : Nat),
      ((rising_edge_len s len).1.temperature = s.temperature ∧
       (rising_edge_len s len).1.humidity = s.humidity) ∨
      (rising_edge_len s len).1.status = DHT_GOOD) ∧
    (∀ model tick0 : Nat, (initState model tick0).temperature = 0 ∧
      (initState model tick0).humidity = 0) ∧
    (∀ s : SensorState, (trigger s).temperature = s.temperature ∧
      (trigger s).humidity = s.humidity) ∧
    (∀ (s : SensorState) (batches : List (List Nat)) (hasCb : Bool),
      (read s batches hasCb).2.1 =
        ((read s batches hasCb).1.status,
         (read s batches hasCb).1.temperature,
         (read s batches hasCb).1.humidity)) := by
  refine ⟨?_, rising_edge_len_values, fun m t => ⟨rfl, rfl⟩,
    fun s => ⟨rfl, rfl⟩, fun s b c => rfl⟩
  intro s h
  rcases decode_dhtxx_fields s with hg | hp
  · rcases h with h | h
    · exact absurd (hg.symm.trans h) (by decide)
    · exact absurd (hg.symm.trans h) (by decide)
  · exact hp

/-- Witness for C10: a frame with a bad checksum (code 1) leaves previously
stored temperature 5 and humidity 7 untouched while reporting
`BAD_CHECKSUM`. -/
theorem c10_witness :
    (decode_dhtxx { initState DHTAUTO 0 with
      code := 1, temperature := 5, humidity := 7 }).status =
        DHT_BAD_CHECKSUM ∧
    (decode_dhtxx { initState DHTAUTO 0 with
      code := 1, temperature := 5, humidity := 7 }).temperature = 5 ∧
    (decode_dhtxx { initState DHTAUTO 0 with
      code := 1, temperature := 5, humidity := 7 }).humidity = 7 := by
  have h := c10_error_keeps_values.1
    { initState DHTAUTO 0 with code := 1, temperature := 5, humidity := 7 }
    (Or.inl rfl)
  exact ⟨rfl, h.1, h.2⟩

/-- Witness for C8 (amended) at a concrete read: with a callback registered
the invocation list is exactly the returned datum; without one it is
empty. -/
theorem c8_witness :
    (read (initState DHT11 0) [[15000]] true).2.2 =
      [(read (initState DHT11 0) [[15000]] true).2.1] ∧
    (read (initState DHT11 0) [[15000]] false).2.2 = [] :=
  c8_callback_every_read (initState DHT11 0) [[15000]]
